import Mathlib

/-!
# Verification of the TommySchool assessment platform

Shallow embedding of the score-formatting utilities
(`client/src/lib/utils/format-data.ts`), the client-side PDF generators
(`generatePDFPreview` and `generatePdf` in the pdf utility module), and the
in-memory storage layer (`MemStorage`) together with the relevant Express
route handlers (`server/routes.ts`).

JavaScript numbers are modelled by `JsNum`: either NaN, a signed infinity,
or a finite value represented exactly as a rational.  The arithmetic
operations mirror the IEEE-754 special-value rules that the source relies
on (`0/0 = NaN`, `Math.round NaN = NaN`, `NaN` is falsy, ...).  Decimal
rendering (`toFixed`, template-literal stringification) is modelled as the
exact decimal expansion; this agrees with JavaScript on every value the
source actually renders.
-/

/-- A JavaScript number: NaN, a signed infinity (`neg = true` for `-∞`),
or a finite value, represented exactly as a rational. -/
inductive JsNum where
  | nan : JsNum
  | inf (neg : Bool) : JsNum
  | fin (q : ℚ) : JsNum
deriving DecidableEq, Repr

namespace JsNum

/-- JavaScript division `x / y`, with the IEEE special cases the source
can reach: `0/0 = NaN`, `x/0 = ±∞` for finite `x ≠ 0`. -/
def div : JsNum → JsNum → JsNum
  | nan, _ => nan
  | _, nan => nan
  | inf _, inf _ => nan
  | inf b, fin q => if q < 0 then inf (!b) else inf b
  | fin _, inf _ => fin 0
  | fin a, fin b =>
      if b = 0 then (if a = 0 then nan else inf (decide (a < 0)))
      else fin (a / b)

/-- JavaScript multiplication, with `NaN` propagation and `∞ * 0 = NaN`. -/
def mul : JsNum → JsNum → JsNum
  | nan, _ => nan
  | _, nan => nan
  | inf a, inf b => inf (a != b)
  | inf a, fin q => if q = 0 then nan else inf (a != decide (q < 0))
  | fin q, inf a => if q = 0 then nan else inf (a != decide (q < 0))
  | fin a, fin b => fin (a * b)

/-- Model of `Math.round`: round half toward `+∞` on finite values, identity on the
specials (`Math.round NaN = NaN`). -/
def round : JsNum → JsNum
  | nan => nan
  | inf b => inf b
  | fin q => fin (⌊q + 1 / 2⌋ : ℤ)

/-- Model of `Number.isFinite`. -/
def isFinite : JsNum → Bool
  | fin _ => true
  | _ => false

/-- JavaScript truthiness of a number: `NaN` and `0` are falsy. -/
def truthy : JsNum → Bool
  | nan => false
  | inf _ => true
  | fin q => decide (q ≠ 0)

/-- The JavaScript `x || y` operator on numbers. -/
def orElse (x y : JsNum) : JsNum := if x.truthy then x else y

end JsNum

/-- Digits of the fractional part of a nonnegative rational, by repeated
multiplication by 10, to at most `n` places (every value the source
renders terminates well before the bound). -/
def fracDigits : ℚ → ℕ → String
  | _, 0 => ""
  | q, n + 1 =>
      if q = 0 then ""
      else
        let q10 := q * 10
        let d : ℤ := ⌊q10⌋
        toString d.toNat ++ fracDigits (q10 - (d : ℚ)) n

/-- Exact decimal string of a nonnegative rational. -/
def decStrNN (q : ℚ) : String :=
  let ip : ℤ := ⌊q⌋
  let frac : ℚ := q - (ip : ℚ)
  if frac = 0 then toString ip.toNat
  else toString ip.toNat ++ "." ++ fracDigits frac 30

/-- Exact decimal string of a rational (JavaScript default number
stringification on the decimal values the source renders). -/
def decStr (q : ℚ) : String :=
  if q < 0 then "-" ++ decStrNN (-q) else decStrNN q

/-- Template-literal stringification of a JavaScript number:
`NaN → "NaN"`, infinities, and the decimal expansion for finite values. -/
def jsToStr : JsNum → String
  | JsNum.nan => "NaN"
  | JsNum.inf false => "Infinity"
  | JsNum.inf true => "-Infinity"
  | JsNum.fin q => decStr q

/-- The digit core of `toFixed(1)` applied to the scaled nonnegative
integer `n = round(10 * x)`. -/
def fixed1Core (n : ℕ) : String := toString (n / 10) ++ "." ++ toString (n % 10)

/-- JavaScript `x.toFixed(1)`: one decimal digit, rounding ties up;
`NaN.toFixed(1) = "NaN"`. -/
def jsToFixed1 : JsNum → String
  | JsNum.nan => "NaN"
  | JsNum.inf false => "Infinity"
  | JsNum.inf true => "-Infinity"
  | JsNum.fin q =>
      let n : ℤ := ⌊10 * q + 1 / 2⌋
      if n < 0 then "-" ++ fixed1Core n.natAbs else fixed1Core n.toNat

/-- Exact mathematical rounding half toward `+∞`, the `round` the spec's
formulas refer to. -/
def specRound (q : ℚ) : ℤ := ⌊q + 1 / 2⌋

/-! ## `client/src/lib/utils/format-data.ts` -/

/-- Model of `formatScoreLevel` (format-data.ts lines 58-64): maps a 1-5 score to
its descriptive level by an if-chain of strict upper bounds. -/
def formatScoreLevel (score : ℚ) : String :=
  if score < 2 then "Needs Improvement"
  else if score < 3 then "Developing"
  else if score < 4 then "Proficient"
  else if score < 4.5 then "Advanced"
  else "Exemplary"

/-- Model of `calculateScorePercentage` (format-data.ts lines 70-72):
`Math.round((score / maxScore) * 100)`.  (The TypeScript parameter
`maxScore` defaults to 5; the default plays no role in any claim.) -/
def calculateScorePercentage (score maxScore : JsNum) : JsNum :=
  (JsNum.div score maxScore |>.mul (JsNum.fin 100)).round

/-! ## `generatePDFPreview` score computations (pdf utility lines 84-88
and 122-127) -/

/-- The inline score-level chain in `generatePDFPreview`
(lines 122-127), written exactly as in the source. -/
def scoreLevelInline (score : ℚ) : String :=
  if score < 2 then "Needs Improvement"
  else if score < 3 then "Developing"
  else if score < 4 then "Proficient"
  else if score < 4.5 then "Advanced"
  else "Exemplary"

/-- The percentage computed inside `generatePDFPreview` (lines 84-88):
`maxTotalScore = criteria.length * 5`, the total falls back to 0 when not
finite, then `Math.round((validTotalScore / maxTotalScore) * 100)`. -/
def pdfScorePercentage (criteriaCount : ℕ) (totalScore : JsNum) : JsNum :=
  let maxTotalScore : ℕ := criteriaCount * 5
  let validTotalScore := if totalScore.isFinite then totalScore else JsNum.fin 0
  (JsNum.div validTotalScore (JsNum.fin maxTotalScore) |>.mul (JsNum.fin 100)).round

/-- The five-bucket mapping exactly as the specification words it
(spec §4.1): `< 2`, `< 3`, `< 4`, `< 4.5`, otherwise Exemplary.
Spec-side definition, for comparison with the source-side ones. -/
def specScoreLevel (s : ℚ) : String :=
  if s < 2 then "Needs Improvement"
  else if s < 3 then "Developing"
  else if s < 4 then "Proficient"
  else if s < 4.5 then "Advanced"
  else "Exemplary"

/-! ## Document model for `generatePDFPreview`

The jsPDF document is modelled as a list of pages, each page the list of
its text items in drawing order.  Each `doc.text` / `autoTable` call site
becomes one constructor carrying the rendered string(s); purely graphic
calls (rects, lines, colors) place no text and are omitted.  The autotable
layout engine is abstracted by a fixed per-row height (`tableFinalY`); no
claim depends on the metric, only on the fixed-threshold overflow check
`finalY > 270` of the source. -/

/-- One text item of the generated document, tagged by the source call
site that produced it. -/
inductive DocItem where
  | headerTitle (s : String)
  | sectionTitle (s : String)
  | detailCell (s : String)
  | scoreLine (s : String)
  | criterionHead (s : String)
  | criterionDesc (s : String)
  | criterionFeedback (s : String)
  | overallFeedbackText (s : String)
  | footer (s : String)
deriving DecidableEq, Repr

/-- jsPDF document state: the pages built so far (items are appended to
the last page) and the `lastAutoTable.finalY` bookkeeping slot. -/
structure PdfState where
  pages : List (List DocItem)
  lastAutoTable : Option ℚ

/-- Append an item to the last page. -/
def appendToLast (it : DocItem) : List (List DocItem) → List (List DocItem)
  | [] => [[it]]
  | [p] => [p ++ [it]]
  | p :: ps => p :: appendToLast it ps

def PdfState.addItem (st : PdfState) (it : DocItem) : PdfState :=
  { st with pages := appendToLast it st.pages }

def PdfState.addItems (st : PdfState) (its : List DocItem) : PdfState :=
  its.foldl PdfState.addItem st

/-- Record the `finalY` reported by an `autoTable` call. -/
def PdfState.setTable (st : PdfState) (y : ℚ) : PdfState :=
  { st with lastAutoTable := some y }

/-- Model of `doc.addPage()`. -/
def PdfState.addPage (st : PdfState) : PdfState :=
  { st with pages := st.pages ++ [[]] }

/-- Abstraction of the autotable engine: the `finalY` of a table of
`rows` rows started at `startY` (fixed 10-unit row height). -/
def tableFinalY (startY : ℚ) (rows : ℕ) : ℚ := startY + 10 * rows

/-- The source's `lastAutoTable?.finalY || d` pattern: take the recorded
finalY when present and truthy, otherwise the fallback. -/
def orElseFinalY (o : Option ℚ) (d : ℚ) : ℚ :=
  match o with
  | some y => if y = 0 then d else y
  | none => d

/-- One entry of `AssessmentPdfOptions.criteria`. -/
structure PdfCriterion where
  name : String
  description : Option String
  score : ℚ
  feedback : Option String
deriving DecidableEq, Repr

/-- Model of `AssessmentPdfOptions` (pdf utility lines 13-26).  `dateStr` stands
for the `toLocaleDateString()` rendering of the `date` field. -/
structure AssessmentPdfOptions where
  studentName : String
  assessorName : String
  taskName : String
  criteria : List PdfCriterion
  overallFeedback : String
  totalScore : JsNum
  dateStr : String
deriving DecidableEq, Repr

/-- Footer text of page `i` of `n` (pdf utility lines 224-229);
`genDate` stands for `new Date().toLocaleDateString()`. -/
def footerText (genDate : String) (i n : ℕ) : String :=
  "Assessment Feedback Platform | Generated on " ++ genDate ++
    " | Page " ++ toString i ++ " of " ++ toString n

/-- Body of the per-criterion loop (pdf utility lines 120-193): title
table with score and derived level, optional description, optional
feedback block, spacing, and the fixed-threshold page-overflow check. -/
def criterionStep (acc : PdfState × ℚ) (ic : ℕ × PdfCriterion) : PdfState × ℚ :=
  let st := acc.1
  let finalY := acc.2
  let index := ic.1
  let criterion := ic.2
  let scoreLevel := scoreLevelInline criterion.score
  let st := st.addItems
    [DocItem.criterionHead (toString (index + 1) ++ ". " ++ criterion.name),
     DocItem.criterionHead (decStr criterion.score ++ "/5 - " ++ scoreLevel)]
  let st := st.setTable (tableFinalY finalY 1)
  let finalY := orElseFinalY st.lastAutoTable finalY
  let stY :=
    match criterion.description with
    | some d =>
        if d ≠ "" then
          let st := (st.addItem (DocItem.criterionDesc d)).setTable (tableFinalY finalY 1)
          (st, orElseFinalY st.lastAutoTable finalY)
        else (st, finalY)
    | none => (st, finalY)
  let st := stY.1
  let finalY := stY.2
  let stY2 :=
    match criterion.feedback with
    | some f =>
        if f.trim ≠ "" then
          let st := st.addItems [DocItem.criterionFeedback "Feedback", DocItem.criterionFeedback f]
          let st := st.setTable (tableFinalY finalY 2)
          (st, orElseFinalY st.lastAutoTable finalY)
        else (st, finalY)
    | none => (st, finalY)
  let st := stY2.1
  let finalY := stY2.2 + 10
  if finalY > 270 then (st.addPage, 20) else (st, finalY)

/-- The rendered score line (pdf utility line 107):
`` `${totalScore.toFixed(1)} / ${maxTotalScore} (${scorePercentage}%)` `` —
note the `toFixed` is applied to the RAW `totalScore`, not the guarded
`validTotalScore`. -/
def scoreLineText (o : AssessmentPdfOptions) : String :=
  jsToFixed1 o.totalScore ++ " / " ++ toString (o.criteria.length * 5) ++
    " (" ++ jsToStr (pdfScorePercentage o.criteria.length o.totalScore) ++ "%)"

/-- Model of `generatePDFPreview` (pdf utility lines 29-235), as the list of pages
of text items it draws.  `genDate` stands for the generation-time
`new Date().toLocaleDateString()` used in the footer. -/
def generatePDFPreview (o : AssessmentPdfOptions) (genDate : String) :
    List (List DocItem) :=
  let st : PdfState := { pages := [[]], lastAutoTable := none }
  let st := st.addItem (DocItem.headerTitle "Assessment Feedback Report")
  let st := st.addItem (DocItem.sectionTitle "Assessment Details")
  let st := st.addItems
    [DocItem.detailCell "Student:", DocItem.detailCell o.studentName,
     DocItem.detailCell "Task:", DocItem.detailCell o.taskName,
     DocItem.detailCell "Assessor:", DocItem.detailCell o.assessorName,
     DocItem.detailCell "Date:", DocItem.detailCell o.dateStr]
  let st := st.setTable (tableFinalY 32 4)
  let finalY := orElseFinalY st.lastAutoTable 60
  let st := st.addItem (DocItem.sectionTitle "Score Summary")
  let st := st.addItem (DocItem.scoreLine (scoreLineText o))
  let finalY := finalY + 50
  let st := st.addItem (DocItem.sectionTitle "Detailed Criterion Feedback")
  let finalY := finalY + 10
  let stY := o.criteria.enum.foldl criterionStep (st, finalY)
  let st := stY.1
  let finalY := stY.2
  let st :=
    if o.overallFeedback != "" && o.overallFeedback.trim != "" then
      let st := st.addItem (DocItem.sectionTitle "Overall Feedback")
      let st := (st.addItem (DocItem.overallFeedbackText o.overallFeedback)).setTable
        (tableFinalY (finalY + 8) 1)
      st
    else st
  let pageCount := st.pages.length
  st.pages.enum.map (fun p => p.2 ++ [DocItem.footer (footerText genDate (p.1 + 1) pageCount)])

/-! ## `generatePdf` aggregate report (pdf utility lines 237-312)

Only the summary aggregates (lines 258-262 and the summary-table rows at
lines 271-272) are claim-relevant; the record carries the fields the
aggregates read. -/

/-- One element of `assessmentData` as read by `generatePdf`. -/
structure ReportRecord where
  status : String
  totalScore : ℚ
  studentFullName : Option String
  taskName : Option String
  assessorFullName : Option String
  updatedAt : Option String
deriving DecidableEq, Repr

/-- Model of `completedAssessments` (line 258): records with status "completed". -/
def completedAssessments (assessmentData : List ReportRecord) : ℕ :=
  (assessmentData.filter (fun a => a.status == "completed")).length

/-- Model of `totalAssessments` (line 259). -/
def totalAssessments (assessmentData : List ReportRecord) : ℕ :=
  assessmentData.length

/-- Model of `averageScore` (lines 260-262): sum of `totalScore` over completed
records, divided by `completedAssessments || 1`. -/
def averageScore (assessmentData : List ReportRecord) : ℚ :=
  ((assessmentData.filter (fun a => a.status == "completed")).foldl
      (fun acc curr => acc + curr.totalScore) 0) /
    (if completedAssessments assessmentData = 0 then 1
     else (completedAssessments assessmentData : ℚ))

/-- The completion-rate cell of the summary table (line 271):
`Math.round((completedAssessments / totalAssessments) * 100) || 0`. -/
def completionRate (assessmentData : List ReportRecord) : JsNum :=
  JsNum.orElse
    ((JsNum.div (JsNum.fin (completedAssessments assessmentData))
        (JsNum.fin (totalAssessments assessmentData))).mul (JsNum.fin 100)).round
    (JsNum.fin 0)

/-! ## Claim C2 -/

/-- The C2 failing input: a one-criterion assessment whose `totalScore`
is NaN. -/
def nanTotalOptions : AssessmentPdfOptions :=
  { studentName := "Jordan Smith"
    assessorName := "Sarah Wilson"
    taskName := "Text Response Essay"
    criteria := [{ name := "Organization & Structure", description := none,
                   score := 3, feedback := none }]
    overallFeedback := ""
    totalScore := JsNum.nan
    dateStr := "5/17/2025" }

/-- A concrete empty-criteria input for the C8 witness. -/
def emptyCritOptions : AssessmentPdfOptions :=
  { studentName := "Emma Johnson"
    assessorName := "Sarah Wilson"
    taskName := "Creative Writing Assessment"
    criteria := []
    overallFeedback := "Good effort"
    totalScore := JsNum.fin 0
    dateStr := "5/17/2025" }

/-! ## In-memory storage layer (`MemStorage`, attached storage source)

JavaScript `Map<number, T>` is modelled as an association list in
insertion order with unique keys (which `Map` guarantees): `mget` is
`Map.get`, `mset` is `Map.set` (replace in place when the key exists,
append otherwise), `mdel` is `Map.delete` returning whether the key was
present, `mvalues` is `Array.from(map.values())`.  Numeric ids are `ℤ`
(the result of `parseInt`); timestamps (`new Date()`) are an abstract
clock value passed to the operations that read the clock.  `Class` and
`Task` are named `SchoolClass` and `TaskRecord` because Lean already
uses those names. -/

abbrev SMap (α : Type) : Type := List (ℤ × α)

def mget {α : Type} : SMap α → ℤ → Option α
  | [], _ => none
  | p :: ps, k => if p.1 == k then some p.2 else mget ps k

def mcontains {α : Type} : SMap α → ℤ → Bool
  | [], _ => false
  | p :: ps, k => p.1 == k || mcontains ps k

def mset {α : Type} : SMap α → ℤ → α → SMap α
  | [], k, v => [(k, v)]
  | p :: ps, k, v => if p.1 == k then (k, v) :: ps else p :: mset ps k v

def mdelList {α : Type} : SMap α → ℤ → SMap α
  | [], _ => []
  | p :: ps, k => if p.1 == k then mdelList ps k else p :: mdelList ps k

/-- Model of `Map.delete`: the boolean result and the new map. -/
def mdel {α : Type} (m : SMap α) (k : ℤ) : Bool × SMap α :=
  (mcontains m k, mdelList m k)

def mvalues {α : Type} (m : SMap α) : List α := m.map (·.2)

/-- Model of `users` row (shared/schema.ts lines 12-20). -/
structure User where
  id : ℤ
  username : String
  password : String
  email : String
  fullName : String
  role : String
  createdAt : ℤ
deriving DecidableEq, Repr

/-- Model of `schools` row (schema lines 28-33). -/
structure School where
  id : ℤ
  name : String
  address : Option String
  createdAt : ℤ
deriving DecidableEq, Repr

/-- Model of `classes` row (schema lines 41-46). -/
structure SchoolClass where
  id : ℤ
  name : String
  schoolId : ℤ
  createdAt : ℤ
deriving DecidableEq, Repr

/-- Model of `students` row (schema lines 54-59). -/
structure Student where
  id : ℤ
  userId : ℤ
  classId : ℤ
  createdAt : ℤ
deriving DecidableEq, Repr

/-- Model of `assessors` row (schema lines 67-72). -/
structure Assessor where
  id : ℤ
  userId : ℤ
  schoolIds : List ℤ
  createdAt : ℤ
deriving DecidableEq, Repr

/-- One rubric criterion (stored in the `criteria` jsonb column). -/
structure CriterionDef where
  id : ℤ
  name : String
  description : String
deriving DecidableEq, Repr

/-- Model of `rubric_templates` row (schema lines 80-86). -/
structure RubricTemplate where
  id : ℤ
  name : String
  description : Option String
  criteria : List CriterionDef
  createdAt : ℤ
deriving DecidableEq, Repr

/-- Model of `tasks` row (schema lines 94-100). -/
structure TaskRecord where
  id : ℤ
  name : String
  description : Option String
  rubricTemplateId : ℤ
  createdAt : ℤ
deriving DecidableEq, Repr

/-- Model of `class_tasks` row (schema lines 108-113). -/
structure ClassTask where
  id : ℤ
  classId : ℤ
  taskId : ℤ
  createdAt : ℤ
deriving DecidableEq, Repr

/-- A JSON value (request bodies and jsonb columns). -/
inductive Json where
  | str (s : String)
  | num (q : ℚ)
  | bool (b : Bool)
  | null
  | arr (xs : List Json)
  | obj (fields : List (String × Json))
deriving Repr

/-- Look up a key of a JSON object. -/
def jget (fields : List (String × Json)) (k : String) : Option Json :=
  (fields.find? (fun p => p.1 == k)).map (·.2)

/-- Model of `assessments` row (schema lines 121-133); `scores` is the jsonb
criterion-id-to-score mapping, kept as raw JSON exactly as the jsonb
column stores it. -/
structure Assessment where
  id : ℤ
  studentId : ℤ
  assessorId : ℤ
  taskId : ℤ
  status : String
  scores : Json
  totalScore : ℤ
  feedback : Option String
  pdfPath : Option String
  createdAt : ℤ
  updatedAt : ℤ
deriving Repr

/-- The `MemStorage` instance state: the nine maps and the nine id
counters (all counters start at 1). -/
structure MemStorage where
  users : SMap User
  schools : SMap School
  classes : SMap SchoolClass
  students : SMap Student
  assessors : SMap Assessor
  rubricTemplates : SMap RubricTemplate
  tasks : SMap TaskRecord
  classTasks : SMap ClassTask
  assessments : SMap Assessment
  userId : ℤ
  schoolId : ℤ
  classId : ℤ
  studentId : ℤ
  assessorId : ℤ
  rubricTemplateId : ℤ
  taskId : ℤ
  classTaskId : ℤ
  assessmentId : ℤ
deriving Repr

/-- A store with no records and every counter at its initial value 1
(the TS constructor additionally seeds demo data; no claim depends on
the seed). -/
def emptyStore : MemStorage :=
  { users := [], schools := [], classes := [], students := [], assessors := []
    rubricTemplates := [], tasks := [], classTasks := [], assessments := []
    userId := 1, schoolId := 1, classId := 1, studentId := 1, assessorId := 1
    rubricTemplateId := 1, taskId := 1, classTaskId := 1, assessmentId := 1 }

/-- Model of `InsertUser` (insert schema: users minus id/createdAt). -/
structure InsertUser where
  username : String
  password : String
  email : String
  fullName : String
  role : String
deriving DecidableEq, Repr

/-- Model of `InsertStudent` (students minus id/createdAt). -/
structure InsertStudent where
  userId : ℤ
  classId : ℤ
deriving DecidableEq, Repr

/-- Model of `InsertAssessor` (assessors minus id/createdAt). -/
structure InsertAssessor where
  userId : ℤ
  schoolIds : List ℤ
deriving DecidableEq, Repr

/-- Model of `createUser` (storage lines 496-501). -/
def createUser (s : MemStorage) (user : InsertUser) (now : ℤ) : User × MemStorage :=
  let id := s.userId
  let newUser : User :=
    { id := id, username := user.username, password := user.password
      email := user.email, fullName := user.fullName, role := user.role, createdAt := now }
  (newUser, { s with users := mset s.users id newUser, userId := s.userId + 1 })

/-- Model of `createStudent` (storage lines 607-617): the linked user is created
first with its role forced to "student", then the student row is created
pointing at the fresh user id. -/
def createStudent (s : MemStorage) (student : InsertStudent) (userData : InsertUser)
    (now : ℤ) : Student × MemStorage :=
  let userWithRole : InsertUser := { userData with role := "student" }
  let us := createUser s userWithRole now
  let user := us.1
  let s1 := us.2
  let id := s1.studentId
  let newStudent : Student :=
    { id := id, userId := user.id, classId := student.classId, createdAt := now }
  (newStudent, { s1 with students := mset s1.students id newStudent,
                         studentId := s1.studentId + 1 })

/-- Model of `createAssessor` (storage lines 649-659): like `createStudent` with
role forced to "assessor". -/
def createAssessor (s : MemStorage) (assessor : InsertAssessor) (userData : InsertUser)
    (now : ℤ) : Assessor × MemStorage :=
  let userWithRole : InsertUser := { userData with role := "assessor" }
  let us := createUser s userWithRole now
  let user := us.1
  let s1 := us.2
  let id := s1.assessorId
  let newAssessor : Assessor :=
    { id := id, userId := user.id, schoolIds := assessor.schoolIds, createdAt := now }
  (newAssessor, { s1 with assessors := mset s1.assessors id newAssessor,
                          assessorId := s1.assessorId + 1 })

/-- Model of `deleteStudent` (storage lines 628-634): when the student exists its
linked user is deleted first; the result is `students.delete(id)`. -/
def deleteStudent (s : MemStorage) (id : ℤ) : Bool × MemStorage :=
  let users' :=
    match mget s.students id with
    | some student => (mdel s.users student.userId).2
    | none => s.users
  let d := mdel s.students id
  (d.1, { s with users := users', students := d.2 })

/-- Model of `deleteAssessor` (storage lines 670-676). -/
def deleteAssessor (s : MemStorage) (id : ℤ) : Bool × MemStorage :=
  let users' :=
    match mget s.assessors id with
    | some assessor => (mdel s.users assessor.userId).2
    | none => s.users
  let d := mdel s.assessors id
  (d.1, { s with users := users', assessors := d.2 })

/-- Concrete student/assessor rows for the C5 witness. -/
def studentRec1 : Student := { id := 1, userId := 1, classId := 1, createdAt := 0 }

def assessorRec1 : Assessor := { id := 1, userId := 2, schoolIds := [1], createdAt := 0 }

/-- A store holding one student (user 1) and one assessor (user 2). -/
def storeC5 : MemStorage :=
  { emptyStore with
    users := [(1, { id := 1, username := "student1", password := "student123"
                    email := "student1@example.com", fullName := "Jordan Smith"
                    role := "student", createdAt := 0 }),
              (2, { id := 2, username := "assessor1", password := "assessor123"
                    email := "assessor@example.com", fullName := "Sarah Wilson"
                    role := "assessor", createdAt := 0 })]
    students := [(1, studentRec1)]
    assessors := [(1, assessorRec1)]
    userId := 3, studentId := 2, assessorId := 2 }

/-! ## Claim C6 -/

/-- The optional filters of `getAssessments` (storage lines 777-782);
the route `GET /api/assessments` (routes lines 560-575) fills exactly
these four fields from the query string. -/
structure AssessmentFilters where
  studentId : Option ℤ := none
  assessorId : Option ℤ := none
  taskId : Option ℤ := none
  status : Option String := none
deriving DecidableEq, Repr

/-- Model of `getAssessments` (storage lines 777-801): sequential `filter` calls,
each guarded by JavaScript truthiness of the supplied value — so a
numeric filter equal to 0 (or an empty status string) is skipped. -/
def getAssessments (s : MemStorage) (filters : Option AssessmentFilters) :
    List Assessment :=
  let result := mvalues s.assessments
  match filters with
  | none => result
  | some f =>
      let result :=
        match f.studentId with
        | some v => if v ≠ 0 then result.filter (fun a => a.studentId == v) else result
        | none => result
      let result :=
        match f.assessorId with
        | some v => if v ≠ 0 then result.filter (fun a => a.assessorId == v) else result
        | none => result
      let result :=
        match f.taskId with
        | some v => if v ≠ 0 then result.filter (fun a => a.taskId == v) else result
        | none => result
      let result :=
        match f.status with
        | some v => if v ≠ "" then result.filter (fun a => a.status == v) else result
        | none => result
      result

/-- A one-assessment store for the C6 counterexample. -/
def assessmentRec1 : Assessment :=
  { id := 1, studentId := 1, assessorId := 1, taskId := 1, status := "completed"
    scores := Json.obj [("1", Json.num 3), ("2", Json.num 4), ("3", Json.num 5),
                        ("4", Json.num 3), ("5", Json.num 4)]
    totalScore := 19
    feedback := none, pdfPath := none, createdAt := 0, updatedAt := 0 }

def storeC6 : MemStorage := { emptyStore with assessments := [(1, assessmentRec1)] }

/-! ## Claim C9 -/

/-- Every student's linked user exists with role "student". -/
def StudentRoleInv (s : MemStorage) : Prop :=
  ∀ id st, mget s.students id = some st →
    ∃ u, mget s.users st.userId = some u ∧ u.role = "student"

/-- Every assessor's linked user exists with role "assessor". -/
def AssessorRoleInv (s : MemStorage) : Prop :=
  ∀ id a, mget s.assessors id = some a →
    ∃ u, mget s.users a.userId = some u ∧ u.role = "assessor"

/-- All user keys are below the user id counter; `createUser` allocates
`this.userId++`, so this holds in every reachable store. -/
def UserCounterInv (s : MemStorage) : Prop :=
  ∀ id u, mget s.users id = some u → id < s.userId

/-- One admin create action (the two operations the claim quantifies
over). -/
inductive CreateOp where
  | createStudentOp (student : InsertStudent) (userData : InsertUser) (now : ℤ)
  | createAssessorOp (assessor : InsertAssessor) (userData : InsertUser) (now : ℤ)
deriving DecidableEq, Repr

/-- Apply a sequence of create operations to the store. -/
def applyCreateOps (s : MemStorage) : List CreateOp → MemStorage
  | [] => s
  | CreateOp.createStudentOp st u now :: ops =>
      applyCreateOps (createStudent s st u now).2 ops
  | CreateOp.createAssessorOp a u now :: ops =>
      applyCreateOps (createAssessor s a u now).2 ops

/-- Concrete create sequence for the C9 witness: the supplied roles
("admin" in both userData records) are overridden. -/
def demoCreateOps : List CreateOp :=
  [CreateOp.createStudentOp { userId := 0, classId := 1 }
     { username := "student9", password := "pw", email := "s9@example.com"
       fullName := "Sam Lee", role := "admin" } 0,
   CreateOp.createAssessorOp { userId := 0, schoolIds := [1] }
     { username := "assessor9", password := "pw", email := "a9@example.com"
       fullName := "Alex Kim", role := "admin" } 0]

/-! ## Claim C10

`Partial<InsertX>` is modelled as a record of `Option` fields (bodies
arrive as JSON, so a present key always has a value); the TS merge
`{ ...existing, ...patch }` keeps `id` and `createdAt` automatically
because the insert schemas omit them. -/

structure SchoolPatch where
  name : Option String := none
  address : Option (Option String) := none
deriving DecidableEq, Repr

structure ClassPatch where
  name : Option String := none
  schoolId : Option ℤ := none
deriving DecidableEq, Repr

structure StudentPatch where
  userId : Option ℤ := none
  classId : Option ℤ := none
deriving DecidableEq, Repr

structure AssessorPatch where
  userId : Option ℤ := none
  schoolIds : Option (List ℤ) := none
deriving DecidableEq, Repr

structure RubricTemplatePatch where
  name : Option String := none
  description : Option (Option String) := none
  criteria : Option (List CriterionDef) := none
deriving DecidableEq, Repr

structure TaskPatch where
  name : Option String := none
  description : Option (Option String) := none
  rubricTemplateId : Option ℤ := none
deriving DecidableEq, Repr

structure AssessmentPatch where
  studentId : Option ℤ := none
  assessorId : Option ℤ := none
  taskId : Option ℤ := none
  status : Option String := none
  scores : Option Json := none
  totalScore : Option ℤ := none
  feedback : Option (Option String) := none
  pdfPath : Option (Option String) := none
deriving Repr

/-- Model of `updateSchool` (storage lines 519-526). -/
def updateSchool (s : MemStorage) (id : ℤ) (school : SchoolPatch) :
    Option School × MemStorage :=
  match mget s.schools id with
  | none => (none, s)
  | some existingSchool =>
      let updatedSchool : School :=
        { id := existingSchool.id
          name := school.name.getD existingSchool.name
          address := school.address.getD existingSchool.address
          createdAt := existingSchool.createdAt }
      (some updatedSchool, { s with schools := mset s.schools id updatedSchool })

/-- Model of `updateClass` (storage lines 552-559). -/
def updateClass (s : MemStorage) (id : ℤ) (cls : ClassPatch) :
    Option SchoolClass × MemStorage :=
  match mget s.classes id with
  | none => (none, s)
  | some existingClass =>
      let updatedClass : SchoolClass :=
        { id := existingClass.id
          name := cls.name.getD existingClass.name
          schoolId := cls.schoolId.getD existingClass.schoolId
          createdAt := existingClass.createdAt }
      (some updatedClass, { s with classes := mset s.classes id updatedClass })

/-- Model of `updateStudent` (storage lines 619-626). -/
def updateStudent (s : MemStorage) (id : ℤ) (student : StudentPatch) :
    Option Student × MemStorage :=
  match mget s.students id with
  | none => (none, s)
  | some existingStudent =>
      let updatedStudent : Student :=
        { id := existingStudent.id
          userId := student.userId.getD existingStudent.userId
          classId := student.classId.getD existingStudent.classId
          createdAt := existingStudent.createdAt }
      (some updatedStudent, { s with students := mset s.students id updatedStudent })

/-- Model of `updateAssessor` (storage lines 661-668). -/
def updateAssessor (s : MemStorage) (id : ℤ) (assessor : AssessorPatch) :
    Option Assessor × MemStorage :=
  match mget s.assessors id with
  | none => (none, s)
  | some existingAssessor =>
      let updatedAssessor : Assessor :=
        { id := existingAssessor.id
          userId := assessor.userId.getD existingAssessor.userId
          schoolIds := assessor.schoolIds.getD existingAssessor.schoolIds
          createdAt := existingAssessor.createdAt }
      (some updatedAssessor, { s with assessors := mset s.assessors id updatedAssessor })

/-- Model of `updateRubricTemplate` (storage lines 698-705). -/
def updateRubricTemplate (s : MemStorage) (id : ℤ) (template : RubricTemplatePatch) :
    Option RubricTemplate × MemStorage :=
  match mget s.rubricTemplates id with
  | none => (none, s)
  | some existingTemplate =>
      let updatedTemplate : RubricTemplate :=
        { id := existingTemplate.id
          name := template.name.getD existingTemplate.name
          description := template.description.getD existingTemplate.description
          criteria := template.criteria.getD existingTemplate.criteria
          createdAt := existingTemplate.createdAt }
      (some updatedTemplate,
       { s with rubricTemplates := mset s.rubricTemplates id updatedTemplate })

/-- Model of `updateTask` (storage lines 731-738). -/
def updateTask (s : MemStorage) (id : ℤ) (task : TaskPatch) :
    Option TaskRecord × MemStorage :=
  match mget s.tasks id with
  | none => (none, s)
  | some existingTask =>
      let updatedTask : TaskRecord :=
        { id := existingTask.id
          name := task.name.getD existingTask.name
          description := task.description.getD existingTask.description
          rubricTemplateId := task.rubricTemplateId.getD existingTask.rubricTemplateId
          createdAt := existingTask.createdAt }
      (some updatedTask, { s with tasks := mset s.tasks id updatedTask })

/-- Model of `updateAssessment` (storage lines 816-827): like the others but
`updatedAt` is refreshed to the current time. -/
def updateAssessment (s : MemStorage) (id : ℤ) (assessment : AssessmentPatch)
    (now : ℤ) : Option Assessment × MemStorage :=
  match mget s.assessments id with
  | none => (none, s)
  | some existingAssessment =>
      let updatedAssessment : Assessment :=
        { id := existingAssessment.id
          studentId := assessment.studentId.getD existingAssessment.studentId
          assessorId := assessment.assessorId.getD existingAssessment.assessorId
          taskId := assessment.taskId.getD existingAssessment.taskId
          status := assessment.status.getD existingAssessment.status
          scores := assessment.scores.getD existingAssessment.scores
          totalScore := assessment.totalScore.getD existingAssessment.totalScore
          feedback := assessment.feedback.getD existingAssessment.feedback
          pdfPath := assessment.pdfPath.getD existingAssessment.pdfPath
          createdAt := existingAssessment.createdAt
          updatedAt := now }
      (some updatedAssessment,
       { s with assessments := mset s.assessments id updatedAssessment })

/-- Concrete school row for the C10 witness. -/
def schoolRec1 : School :=
  { id := 1, name := "Westside High School", address := some "123 West Street"
    createdAt := 0 }

/-- A store holding one school and one assessment. -/
def storeC10 : MemStorage :=
  { emptyStore with
    schools := [(1, schoolRec1)]
    assessments := [(1, assessmentRec1)]
    schoolId := 2
    assessmentId := 2 }

/-! ## Claim C7: PUT route handlers (routes lines 194-208, 617-648)

Zod validation of the partial insert schemas is modelled per column
type: text columns accept strings (nullable ones also null), integer
columns accept integral numbers, the status enum accepts "draft" and
"completed", and the jsonb `scores` column accepts any JSON value; all
field errors are collected, each carrying its path (the 400 response's
field-level detail). -/

/-- One zod issue: path and error code. -/
structure FieldError where
  path : List String
  code : String
deriving DecidableEq, Repr

/-- Validate an optional integer column field. -/
def parseIntField (fields : List (String × Json)) (key : String) :
    Except FieldError (Option ℤ) :=
  match jget fields key with
  | none => Except.ok none
  | some (Json.num q) =>
      if q.den = 1 then Except.ok (some q.num)
      else Except.error { path := [key], code := "invalid_type" }
  | some _ => Except.error { path := [key], code := "invalid_type" }

/-- Validate the optional status enum field. -/
def parseStatusField (fields : List (String × Json)) (key : String) :
    Except FieldError (Option String) :=
  match jget fields key with
  | none => Except.ok none
  | some (Json.str s) =>
      if s == "draft" || s == "completed" then Except.ok (some s)
      else Except.error { path := [key], code := "invalid_enum_value" }
  | some _ => Except.error { path := [key], code := "invalid_type" }

/-- Validate an optional nullable text column field. -/
def parseNullableStrField (fields : List (String × Json)) (key : String) :
    Except FieldError (Option (Option String)) :=
  match jget fields key with
  | none => Except.ok none
  | some (Json.str s) => Except.ok (some (some s))
  | some Json.null => Except.ok (some none)
  | some _ => Except.error { path := [key], code := "invalid_type" }

/-- The errors contributed by one field result. -/
def errsOf {α : Type} : Except FieldError α → List FieldError
  | Except.error e => [e]
  | Except.ok _ => []

/-- The value of a succeeded optional field (none when it errored; only
read when no field errored). -/
def okD {α : Type} : Except FieldError (Option α) → Option α
  | Except.ok v => v
  | Except.error _ => none

/-- Model of `insertSchoolSchema.partial().parse(req.body)` (routes line 196):
the body must be an object; "name" accepts a string, "address" a string
or null; unknown keys are stripped; all issues are collected. -/
def parseSchoolPatch (body : Json) : Except (List FieldError) SchoolPatch :=
  match body with
  | Json.obj fields =>
      let nameR : Except FieldError (Option String) :=
        match jget fields "name" with
        | none => Except.ok none
        | some (Json.str s) => Except.ok (some s)
        | some _ => Except.error { path := ["name"], code := "invalid_type" }
      let addrR := parseNullableStrField fields "address"
      let errs := errsOf nameR ++ errsOf addrR
      if errs.isEmpty then Except.ok { name := okD nameR, address := okD addrR }
      else Except.error errs
  | _ => Except.error [{ path := [], code := "invalid_type" }]

/-- Model of `insertAssessmentSchema.partial().parse(req.body)` (routes
line 619). -/
def parseAssessmentPatch (body : Json) : Except (List FieldError) AssessmentPatch :=
  match body with
  | Json.obj fields =>
      let rStu := parseIntField fields "studentId"
      let rAss := parseIntField fields "assessorId"
      let rTask := parseIntField fields "taskId"
      let rStatus := parseStatusField fields "status"
      let rScores : Except FieldError (Option Json) := Except.ok (jget fields "scores")
      let rTotal := parseIntField fields "totalScore"
      let rFb := parseNullableStrField fields "feedback"
      let rPdf := parseNullableStrField fields "pdfPath"
      let errs := errsOf rStu ++ errsOf rAss ++ errsOf rTask ++ errsOf rStatus ++
        errsOf rScores ++ errsOf rTotal ++ errsOf rFb ++ errsOf rPdf
      if errs.isEmpty then
        Except.ok
          { studentId := okD rStu, assessorId := okD rAss, taskId := okD rTask
            status := okD rStatus, scores := okD rScores, totalScore := okD rTotal
            feedback := okD rFb, pdfPath := okD rPdf }
      else Except.error errs
  | _ => Except.error [{ path := [], code := "invalid_type" }]

/-- Model of `getAssessment` (storage lines 773-775). -/
def getAssessment (s : MemStorage) (id : ℤ) : Option Assessment :=
  mget s.assessments id

/-- Model of `AssessmentWithRelations` (schema lines 173-177), flattened. -/
structure AssessmentWithRelations where
  assessment : Assessment
  student : Student
  studentUser : User
  assessor : Assessor
  assessorUser : User
  task : TaskRecord
  rubricTemplate : RubricTemplate
deriving Repr

/-- Model of `getAssessmentWithRelations` (storage lines 833-861): every missing
relation makes the whole lookup return `undefined`. -/
def getAssessmentWithRelations (s : MemStorage) (id : ℤ) :
    Option AssessmentWithRelations :=
  match mget s.assessments id with
  | none => none
  | some assessment =>
    match mget s.students assessment.studentId with
    | none => none
    | some student =>
      match mget s.users student.userId with
      | none => none
      | some studentUser =>
        match mget s.assessors assessment.assessorId with
        | none => none
        | some assessor =>
          match mget s.users assessor.userId with
          | none => none
          | some assessorUser =>
            match mget s.tasks assessment.taskId with
            | none => none
            | some task =>
              match mget s.rubricTemplates task.rubricTemplateId with
              | none => none
              | some rubricTemplate =>
                some { assessment := assessment, student := student
                       studentUser := studentUser, assessor := assessor
                       assessorUser := assessorUser, task := task
                       rubricTemplate := rubricTemplate }

/-- Model of `.replace(/\s+/g, '')`: strip all whitespace. -/
def sanitizeSpaces (s : String) : String :=
  (s.toList.filter (fun c => !c.isWhitespace)).asString

/-- The server-side mock `generatePDF` (routes lines 19-36): throws when
the assessment or a relation is missing, otherwise returns the pdf path
derived from the sanitized student and task names. -/
def generatePDF (s : MemStorage) (assessmentId : ℤ) : Except String String :=
  match getAssessmentWithRelations s assessmentId with
  | none => Except.error "Assessment not found"
  | some rel =>
      Except.ok ("/pdfs/" ++ sanitizeSpaces rel.studentUser.fullName ++ "_" ++
        sanitizeSpaces rel.task.name ++ ".pdf")

/-- An HTTP response: status code and the zod issues carried by a 400
body. -/
structure RouteResponse where
  status : ℕ
  errors : List FieldError
deriving DecidableEq, Repr

/-- Model of `PUT /api/schools/:id` (routes lines 194-208): parse, then update;
a `ZodError` yields 400 with the issues, a missing id yields 404. -/
def putSchool (s : MemStorage) (id : ℤ) (body : Json) :
    RouteResponse × MemStorage :=
  match parseSchoolPatch body with
  | Except.error errs => ({ status := 400, errors := errs }, s)
  | Except.ok schoolData =>
      match updateSchool s id schoolData with
      | (none, s1) => ({ status := 404, errors := [] }, s1)
      | (some _, s1) => ({ status := 200, errors := [] }, s1)

/-- The `{ pdfPath }` partial update of routes line 637. -/
def pdfPathPatch (p : String) : AssessmentPatch := { pdfPath := some (some p) }

/-- JavaScript falsiness of a nullable string (`!currentAssessment.pdfPath`):
null/undefined or empty. -/
def strOptFalsy : Option String → Bool
  | none => true
  | some p => p == ""

/-- Model of `PUT /api/assessments/:id` (routes lines 617-648): parse, check the
current assessment (404 before any mutation), update, then regenerate
the PDF when the update completed the assessment or it had no pdf; a
thrown `generatePDF` error is caught as 500. -/
def putAssessment (s : MemStorage) (id : ℤ) (body : Json) (now : ℤ) :
    RouteResponse × MemStorage :=
  match parseAssessmentPatch body with
  | Except.error errs => ({ status := 400, errors := errs }, s)
  | Except.ok assessmentData =>
      match getAssessment s id with
      | none => ({ status := 404, errors := [] }, s)
      | some currentAssessment =>
          match updateAssessment s id assessmentData now with
          | (none, s1) => ({ status := 404, errors := [] }, s1)
          | (some assessment, s1) =>
              if assessment.status == "completed" &&
                  (currentAssessment.status != "completed" ||
                    strOptFalsy currentAssessment.pdfPath) then
                match generatePDF s1 assessment.id with
                | Except.error _ => ({ status := 500, errors := [] }, s1)
                | Except.ok pdfPath =>
                    ({ status := 200, errors := [] },
                     (updateAssessment s1 assessment.id (pdfPathPatch pdfPath) now).2)
              else ({ status := 200, errors := [] }, s1)

/-! ## Helper lemmas -/

/-- Model of `x || 0` on a finite number is that number (falsy finite means 0). -/
theorem JsNum.orElse_fin_zero (q : ℚ) :
    JsNum.orElse (JsNum.fin q) (JsNum.fin 0) = JsNum.fin q := by
  by_cases h : q = 0 <;> simp [JsNum.orElse, JsNum.truthy, h]

/-- The `reduce((acc, curr) => acc + curr.totalScore, 0)` fold is the sum
of the scores. -/
theorem foldl_add_totalScore (l : List ReportRecord) (a : ℚ) :
    l.foldl (fun acc curr => acc + curr.totalScore) a =
      a + (l.map ReportRecord.totalScore).sum := by
  induction l generalizing a with
  | nil => simp
  | cons x xs ih => simp [List.foldl, ih, add_assoc]

/-! ## Claim C3 -/

/-- C3: the qualitative label equals the spec's five-bucket mapping
(`< 2` Needs Improvement, `< 3` Developing, `< 4` Proficient, `< 4.5`
Advanced, else Exemplary) for every score, both for the shared
`formatScoreLevel` utility and the inline chain in `generatePDFPreview`,
which therefore agree on every input; the boundary values behave as the
spec lists (1.99 Needs Improvement, 2.0 Developing). -/
theorem scoreLevel_matches_spec_thresholds :
    ∀ s : ℚ, formatScoreLevel s = specScoreLevel s ∧
      scoreLevelInline s = formatScoreLevel s ∧
      formatScoreLevel (199 / 100) = "Needs Improvement" ∧
      formatScoreLevel 2 = "Developing" ∧
      formatScoreLevel 4 = "Advanced" ∧
      formatScoreLevel (9 / 2) = "Exemplary" := by
  intro s
  exact ⟨rfl, rfl, by norm_num [formatScoreLevel], by norm_num [formatScoreLevel],
    by norm_num [formatScoreLevel], by norm_num [formatScoreLevel]⟩

/-! ## Claim C1 -/

/-- C1 counterexample: `percentage(0, 0)` does not yield 0% — with both
arguments 0 (criteria count 0 in the PDF path) the computation is
`Math.round((0/0) * 100) = NaN`, there being no divide-by-zero guard. -/
theorem calculateScorePercentage_zero_zero_is_nan :
    calculateScorePercentage (JsNum.fin 0) (JsNum.fin 0) = JsNum.nan ∧
    calculateScorePercentage (JsNum.fin 0) (JsNum.fin 0) ≠ JsNum.fin 0 ∧
    pdfScorePercentage 0 (JsNum.fin 0) = JsNum.nan := by
  refine ⟨by decide, by decide, by decide⟩

/-- C1 amended: for every finite total and nonzero finite maxScore the
score-percentage computation returns `round(total/maxScore*100)` exactly,
both in `calculateScorePercentage` and in the percentage derived inside
`generatePDFPreview` with `maxScore = criteriaCount * 5`; at `(0, 0)`
nothing is thrown but the result is NaN, not 0%. -/
theorem scorePercentage_eq_round :
    (∀ t m : ℚ, m ≠ 0 →
      calculateScorePercentage (JsNum.fin t) (JsNum.fin m) =
        JsNum.fin (specRound (t / m * 100))) ∧
    (∀ (n : ℕ) (t : ℚ), n ≠ 0 →
      pdfScorePercentage n (JsNum.fin t) =
        JsNum.fin (specRound (t / ((n : ℚ) * 5) * 100))) := by
  constructor
  · intro t m hm
    simp [calculateScorePercentage, JsNum.div, JsNum.mul, JsNum.round, specRound, hm]
  · intro n t hn
    have h5 : ((n : ℚ) * 5) ≠ 0 :=
      mul_ne_zero (Nat.cast_ne_zero.mpr hn) (by norm_num)
    have hcast : ((n * 5 : ℕ) : ℚ) = (n : ℚ) * 5 := by push_cast; ring
    simp only [pdfScorePercentage, JsNum.isFinite, if_true, JsNum.div, hcast,
      if_neg h5, JsNum.mul, JsNum.round, specRound]

/-- Witness for C1's amended theorem at concrete inputs. -/
theorem scorePercentage_eq_round_witness :
    ((5 : ℚ) ≠ 0 ∧
      calculateScorePercentage (JsNum.fin 3) (JsNum.fin 5) =
        JsNum.fin (specRound (3 / 5 * 100))) ∧
    ((1 : ℕ) ≠ 0 ∧
      pdfScorePercentage 1 (JsNum.fin 19) =
        JsNum.fin (specRound (19 / (((1 : ℕ) : ℚ) * 5) * 100))) :=
  ⟨⟨by decide, scorePercentage_eq_round.1 3 5 (by decide)⟩,
   ⟨by decide, scorePercentage_eq_round.2 1 19 (by decide)⟩⟩

/-! ## Claim C4 -/

/-- C4: for every record list, the completion rate equals
`round(completed/total*100)` whenever the list is nonempty and is a
well-defined finite value in every case (the `|| 0` guard turns the
empty-list NaN into 0); the average is the mean of `totalScore` over
completed records only; both aggregates are insensitive to non-completed
records; the empty completed set (including the empty list) raises
nothing and yields 0. -/
theorem generatePdf_summary_aggregates :
    (∀ l : List ReportRecord, totalAssessments l ≠ 0 →
      completionRate l =
        JsNum.fin (specRound ((completedAssessments l : ℚ) / (totalAssessments l : ℚ) * 100))) ∧
    (∀ l : List ReportRecord, ∃ q : ℚ, completionRate l = JsNum.fin q) ∧
    (∀ l : List ReportRecord, completedAssessments l ≠ 0 →
      averageScore l =
        ((l.filter (fun a => a.status == "completed")).map ReportRecord.totalScore).sum /
          (completedAssessments l : ℚ)) ∧
    (∀ l : List ReportRecord,
      completedAssessments (l.filter (fun a => a.status == "completed")) =
        completedAssessments l ∧
      averageScore (l.filter (fun a => a.status == "completed")) = averageScore l) ∧
    (completionRate [] = JsNum.fin 0 ∧ averageScore [] = 0) := by
  have hrate : ∀ l : List ReportRecord, totalAssessments l ≠ 0 →
      completionRate l =
        JsNum.fin (specRound ((completedAssessments l : ℚ) / (totalAssessments l : ℚ) * 100)) := by
    intro l hl
    have ht : ((totalAssessments l : ℚ)) ≠ 0 := by exact_mod_cast hl
    simp [completionRate, JsNum.div, JsNum.mul, JsNum.round, specRound, ht,
      JsNum.orElse_fin_zero]
  have hfilter : ∀ l : List ReportRecord,
      (l.filter (fun a => a.status == "completed")).filter (fun a => a.status == "completed") =
        l.filter (fun a => a.status == "completed") := by
    intro l
    simp [List.filter_filter]
  refine ⟨hrate, ?_, ?_, ?_, by decide, ?_⟩
  · intro l
    by_cases hl : totalAssessments l = 0
    · refine ⟨0, ?_⟩
      have hnil : l = [] := List.length_eq_zero.mp hl
      subst hnil
      decide
    · exact ⟨_, hrate l hl⟩
  · intro l hc
    simp [averageScore, hc, foldl_add_totalScore]
  · intro l
    have hcc : completedAssessments (l.filter (fun a => a.status == "completed")) =
        completedAssessments l := by
      simp [completedAssessments, hfilter]
    refine ⟨hcc, ?_⟩
    simp [averageScore, hcc, hfilter]
  · simp [averageScore, completedAssessments]

/-- Witness for C4 at a concrete two-record list. -/
theorem generatePdf_summary_aggregates_witness :
    (totalAssessments
        [⟨"completed", 4, none, none, none, none⟩, ⟨"draft", 2, none, none, none, none⟩] ≠ 0 ∧
      completionRate
          [⟨"completed", 4, none, none, none, none⟩, ⟨"draft", 2, none, none, none, none⟩] =
        JsNum.fin (specRound
          ((completedAssessments
              [⟨"completed", 4, none, none, none, none⟩, ⟨"draft", 2, none, none, none, none⟩] : ℚ) /
            (totalAssessments
              [⟨"completed", 4, none, none, none, none⟩, ⟨"draft", 2, none, none, none, none⟩] : ℚ) * 100))) ∧
    (completedAssessments
        [⟨"completed", 4, none, none, none, none⟩, ⟨"draft", 2, none, none, none, none⟩] ≠ 0 ∧
      averageScore
          [⟨"completed", 4, none, none, none, none⟩, ⟨"draft", 2, none, none, none, none⟩] =
        (([⟨"completed", 4, none, none, none, none⟩,
            ⟨"draft", 2, none, none, none, none⟩].filter
              (fun a => a.status == "completed")).map ReportRecord.totalScore).sum /
          (completedAssessments
            [⟨"completed", 4, none, none, none, none⟩, ⟨"draft", 2, none, none, none, none⟩] : ℚ)) :=
  ⟨⟨by decide, generatePdf_summary_aggregates.1 _ (by decide)⟩,
   ⟨by decide, generatePdf_summary_aggregates.2.2.1 _ (by decide)⟩⟩

/-! ## Items of the document only accumulate -/

theorem self_mem_appendToLast (it : DocItem) (pages : List (List DocItem)) :
    it ∈ (appendToLast it pages).flatten := by
  induction pages with
  | nil => simp [appendToLast]
  | cons p ps ih =>
      cases ps with
      | nil => simp [appendToLast]
      | cons q qs => simpa [appendToLast] using Or.inr ih

theorem mem_join_appendToLast (x it : DocItem) (pages : List (List DocItem))
    (h : x ∈ pages.flatten) : x ∈ (appendToLast it pages).flatten := by
  induction pages with
  | nil => simp at h
  | cons p ps ih =>
      cases ps with
      | nil =>
          simp [appendToLast] at h ⊢
          tauto
      | cons q qs =>
          simp [appendToLast] at h ⊢
          rcases h with h | h
          · exact Or.inl h
          · exact Or.inr (by simpa using ih (by simpa using h))

theorem mem_join_addItem (x it : DocItem) (st : PdfState)
    (h : x ∈ st.pages.flatten) : x ∈ (st.addItem it).pages.flatten :=
  mem_join_appendToLast x it st.pages h

theorem self_mem_addItem (it : DocItem) (st : PdfState) :
    it ∈ (st.addItem it).pages.flatten :=
  self_mem_appendToLast it st.pages

theorem mem_join_addItems (x : DocItem) (its : List DocItem) (st : PdfState)
    (h : x ∈ st.pages.flatten) : x ∈ (st.addItems its).pages.flatten := by
  induction its generalizing st with
  | nil => exact h
  | cons i is ih => exact ih _ (mem_join_addItem x i st h)

theorem pages_setTable (st : PdfState) (y : ℚ) : (st.setTable y).pages = st.pages := rfl

theorem mem_join_addPage (x : DocItem) (st : PdfState)
    (h : x ∈ st.pages.flatten) : x ∈ st.addPage.pages.flatten := by
  simpa [PdfState.addPage] using h

theorem mem_join_criterionStep (x : DocItem) (acc : PdfState × ℚ) (ic : ℕ × PdfCriterion)
    (h : x ∈ acc.1.pages.flatten) : x ∈ (criterionStep acc ic).1.pages.flatten := by
  obtain ⟨st, finalY⟩ := acc
  obtain ⟨index, criterion⟩ := ic
  simp only [criterionStep]
  repeat' split
  all_goals
    repeat
      first
      | exact h
      | apply mem_join_addPage
      | apply mem_join_addItem
      | apply mem_join_addItems
      | rw [pages_setTable]
      | simp only []

theorem mem_join_foldl (x : DocItem) (l : List (ℕ × PdfCriterion)) (init : PdfState × ℚ)
    (h : x ∈ init.1.pages.flatten) : x ∈ (l.foldl criterionStep init).1.pages.flatten := by
  induction l generalizing init with
  | nil => exact h
  | cons a as ih => exact ih _ (mem_join_criterionStep x init a h)

theorem mem_join_enumFrom_map (x : DocItem) (f : ℕ × List DocItem → DocItem) :
    ∀ (n : ℕ) (pages : List (List DocItem)), x ∈ pages.flatten →
      x ∈ ((List.enumFrom n pages).map (fun p => p.2 ++ [f p])).flatten := by
  intro n pages
  induction pages generalizing n with
  | nil => simp
  | cons p ps ih =>
      intro h
      rw [List.flatten_cons] at h
      rw [show List.enumFrom n (p :: ps) = (n, p) :: List.enumFrom (n + 1) ps from rfl,
        List.map_cons, List.flatten_cons]
      rcases List.mem_append.mp h with h | h
      · exact List.mem_append_left _ (List.mem_append_left _ h)
      · exact List.mem_append_right _ (ih (n + 1) h)

theorem mem_join_enum_map (x : DocItem) (f : ℕ × List DocItem → DocItem)
    (pages : List (List DocItem)) (h : x ∈ pages.flatten) :
    x ∈ ((pages.enum).map (fun p => p.2 ++ [f p])).flatten :=
  mem_join_enumFrom_map x f 0 pages h

/-- The score line of `generatePDFPreview` is always in the produced
document (used to exhibit concrete rendered score lines). -/
theorem scoreLine_mem_generatePDFPreview (o : AssessmentPdfOptions) (genDate : String) :
    DocItem.scoreLine (scoreLineText o) ∈ (generatePDFPreview o genDate).flatten := by
  unfold generatePDFPreview
  apply mem_join_enum_map
  split
  · rw [pages_setTable]
    apply mem_join_addItem
    apply mem_join_addItem
    apply mem_join_foldl
    apply mem_join_addItem
    exact self_mem_addItem _ _
  · apply mem_join_foldl
    apply mem_join_addItem
    exact self_mem_addItem _ _

/-- C2: the guarded percentage does fall back to 0 on a NaN total (no
exception path exists), but the rendered score line applies `toFixed(1)`
to the RAW `totalScore` (line 107), so the produced document does contain
"NaN" text: its score line reads "NaN / 5 (0%)". -/
theorem generatePDFPreview_nan_total_prints_nan :
    pdfScorePercentage 1 JsNum.nan = JsNum.fin 0 ∧
    scoreLineText nanTotalOptions = "NaN / 5 (0%)" ∧
    DocItem.scoreLine "NaN / 5 (0%)" ∈
      (generatePDFPreview nanTotalOptions "5/17/2025").flatten ∧
    (∃ pre post, "NaN / 5 (0%)" = pre ++ "NaN" ++ post) := by
  have hp : pdfScorePercentage 1 JsNum.nan = JsNum.fin 0 := by
    norm_num [pdfScorePercentage, JsNum.isFinite, JsNum.div, JsNum.mul, JsNum.round]
  have h0 : jsToStr (JsNum.fin 0) = "0" := by
    norm_num [jsToStr, decStr, decStrNN]
    decide
  have hline : scoreLineText nanTotalOptions = "NaN / 5 (0%)" := by
    have hc : nanTotalOptions.criteria.length = 1 := rfl
    have ht : nanTotalOptions.totalScore = JsNum.nan := rfl
    simp only [scoreLineText, hc, ht, hp, h0, jsToFixed1]
    decide
  exact ⟨hp, hline, hline ▸ scoreLine_mem_generatePDFPreview nanTotalOptions "5/17/2025",
    ⟨"", " / 5 (0%)", by decide⟩⟩

/-! ## Claim C8 -/

/-- C8: with an empty criteria list, `generatePDFPreview` produces a
single-page document (the only `addPage` site is inside the criteria
loop) containing the header band title and the page footer, and no
per-criterion item of any kind. -/
theorem generatePDFPreview_empty_criteria (o : AssessmentPdfOptions) (genDate : String)
    (h : o.criteria = []) :
    ∃ p, generatePDFPreview o genDate = [p] ∧
      DocItem.headerTitle "Assessment Feedback Report" ∈ p ∧
      DocItem.footer (footerText genDate 1 1) ∈ p ∧
      ∀ s : String, DocItem.criterionHead s ∉ p ∧ DocItem.criterionDesc s ∉ p ∧
        DocItem.criterionFeedback s ∉ p := by
  unfold generatePDFPreview
  rw [h]
  simp only [PdfState.addItem, PdfState.addItems, PdfState.setTable, appendToLast,
    List.foldl, List.enum, List.enumFrom, List.map, List.length, List.nil_append,
    List.append_assoc, List.singleton_append, List.cons_append]
  split
  all_goals refine ⟨_, rfl, ?_, ?_, ?_⟩
  all_goals simp

/-- Witness for C8 at a concrete input. -/
theorem generatePDFPreview_empty_criteria_witness :
    emptyCritOptions.criteria = [] ∧
    (∃ p, generatePDFPreview emptyCritOptions "5/17/2025" = [p] ∧
      DocItem.headerTitle "Assessment Feedback Report" ∈ p ∧
      DocItem.footer (footerText "5/17/2025" 1 1) ∈ p ∧
      ∀ s : String, DocItem.criterionHead s ∉ p ∧ DocItem.criterionDesc s ∉ p ∧
        DocItem.criterionFeedback s ∉ p) :=
  ⟨rfl, generatePDFPreview_empty_criteria emptyCritOptions "5/17/2025" rfl⟩

/-! ### Association-map lemmas -/

theorem mget_mdelList_self {α : Type} (m : SMap α) (k : ℤ) :
    mget (mdelList m k) k = none := by
  induction m with
  | nil => rfl
  | cons p ps ih =>
      by_cases h : p.1 == k
      · simpa [mdelList, h] using ih
      · simp [mdelList, mget, h, ih]

theorem mcontains_false_of_mget_none {α : Type} (m : SMap α) (k : ℤ)
    (h : mget m k = none) : mcontains m k = false := by
  induction m with
  | nil => rfl
  | cons p ps ih =>
      by_cases hp : p.1 == k
      · simp [mget, hp] at h
      · simp [mget, hp] at h
        simp [mcontains, hp, ih h]

theorem mcontains_true_of_mget_some {α : Type} (m : SMap α) (k : ℤ) (v : α)
    (h : mget m k = some v) : mcontains m k = true := by
  induction m with
  | nil => simp [mget] at h
  | cons p ps ih =>
      by_cases hp : p.1 == k
      · simp [mcontains, hp]
      · simp [mget, hp] at h
        simp [mcontains, hp, ih h]

theorem mdelList_of_mget_none {α : Type} (m : SMap α) (k : ℤ)
    (h : mget m k = none) : mdelList m k = m := by
  induction m with
  | nil => rfl
  | cons p ps ih =>
      by_cases hp : p.1 == k
      · simp [mget, hp] at h
      · simp [mget, hp] at h
        simp [mdelList, hp, ih h]

theorem mget_mset_self {α : Type} (m : SMap α) (k : ℤ) (v : α) :
    mget (mset m k v) k = some v := by
  induction m with
  | nil => simp [mset, mget]
  | cons p ps ih =>
      by_cases hp : p.1 == k
      · simp [mset, hp, mget]
      · simp [mset, hp, mget, ih]

theorem mget_mset_ne {α : Type} (m : SMap α) (k k' : ℤ) (v : α) (h : k' ≠ k) :
    mget (mset m k v) k' = mget m k' := by
  have hkk : (k == k') = false := by
    simp only [beq_eq_false_iff_ne, ne_eq]
    exact fun hk => h hk.symm
  induction m with
  | nil => simp [mset, mget, hkk]
  | cons p ps ih =>
      by_cases hp : p.1 == k
      · have hpk : p.1 = k := eq_of_beq hp
        simp [mset, hp, mget, hpk, hkk]
      · simp [mset, hp, mget, ih]

/-! ## Claim C5 -/

/-- C5: `deleteStudent` / `deleteAssessor` on a present id delete both
the entity row and its linked user and return true; on an absent id they
return false and leave the store (in particular the users map) entirely
unchanged. -/
theorem delete_student_assessor_cascade (s : MemStorage) (id : ℤ) :
    (∀ st, mget s.students id = some st →
      (deleteStudent s id).1 = true ∧
      mget (deleteStudent s id).2.students id = none ∧
      mget (deleteStudent s id).2.users st.userId = none) ∧
    (mget s.students id = none → deleteStudent s id = (false, s)) ∧
    (∀ a, mget s.assessors id = some a →
      (deleteAssessor s id).1 = true ∧
      mget (deleteAssessor s id).2.assessors id = none ∧
      mget (deleteAssessor s id).2.users a.userId = none) ∧
    (mget s.assessors id = none → deleteAssessor s id = (false, s)) := by
  refine ⟨?_, ?_, ?_, ?_⟩
  · intro st hst
    simp [deleteStudent, mdel, hst, mcontains_true_of_mget_some _ _ _ hst,
      mget_mdelList_self]
  · intro hnone
    simp [deleteStudent, mdel, hnone, mcontains_false_of_mget_none _ _ hnone,
      mdelList_of_mget_none _ _ hnone]
  · intro a ha
    simp [deleteAssessor, mdel, ha, mcontains_true_of_mget_some _ _ _ ha,
      mget_mdelList_self]
  · intro hnone
    simp [deleteAssessor, mdel, hnone, mcontains_false_of_mget_none _ _ hnone,
      mdelList_of_mget_none _ _ hnone]

/-- Witness for C5: present ids 1 and absent id 99 in `storeC5`. -/
theorem delete_student_assessor_cascade_witness :
    (mget storeC5.students 1 = some studentRec1 ∧
      ((deleteStudent storeC5 1).1 = true ∧
        mget (deleteStudent storeC5 1).2.students 1 = none ∧
        mget (deleteStudent storeC5 1).2.users studentRec1.userId = none)) ∧
    (mget storeC5.students 99 = none ∧ deleteStudent storeC5 99 = (false, storeC5)) ∧
    (mget storeC5.assessors 1 = some assessorRec1 ∧
      ((deleteAssessor storeC5 1).1 = true ∧
        mget (deleteAssessor storeC5 1).2.assessors 1 = none ∧
        mget (deleteAssessor storeC5 1).2.users assessorRec1.userId = none)) ∧
    (mget storeC5.assessors 99 = none ∧ deleteAssessor storeC5 99 = (false, storeC5)) :=
  ⟨⟨rfl, (delete_student_assessor_cascade storeC5 1).1 studentRec1 rfl⟩,
   ⟨rfl, (delete_student_assessor_cascade storeC5 99).2.1 rfl⟩,
   ⟨rfl, (delete_student_assessor_cascade storeC5 1).2.2.1 assessorRec1 rfl⟩,
   ⟨rfl, (delete_student_assessor_cascade storeC5 99).2.2.2 rfl⟩⟩

/-- C6 counterexample: supplying the task filter with value 0 does not
restrict the result at all — the lone assessment has `taskId = 1`, fails
the supplied `taskId = 0` filter, yet is returned, because the truthiness
guard `if (filters.taskId)` treats 0 as "no filter". -/
theorem getAssessments_zero_filter_not_and_semantics :
    getAssessments storeC6 (some { taskId := some 0 }) = [assessmentRec1] ∧
    assessmentRec1.taskId = 1 ∧ (1 : ℤ) ≠ 0 :=
  ⟨rfl, rfl, by decide⟩

/-- C6 amended: for the filters the assessment-listing query actually
supports (studentId, assessorId, taskId, status — school and class are
not filters of this query), AND semantics holds for every filter supplied
with a truthy value (nonzero id, nonempty status): an assessment is in
the result iff it is in the store and matches every such filter; a filter
supplied with a falsy value (0 or "") is ignored. -/
theorem getAssessments_and_semantics (s : MemStorage) (f : AssessmentFilters)
    (a : Assessment) :
    a ∈ getAssessments s (some f) ↔
      (a ∈ mvalues s.assessments ∧
        (∀ v, f.studentId = some v → v ≠ 0 → a.studentId = v) ∧
        (∀ v, f.assessorId = some v → v ≠ 0 → a.assessorId = v) ∧
        (∀ v, f.taskId = some v → v ≠ 0 → a.taskId = v) ∧
        (∀ v, f.status = some v → v ≠ "" → a.status = v)) := by
  obtain ⟨fs, fa, ft, fst⟩ := f
  simp only [getAssessments]
  rcases fs with _ | vs <;> rcases fa with _ | va <;> rcases ft with _ | vt <;>
    rcases fst with _ | vst
  all_goals simp only []
  all_goals try split_ifs
  all_goals simp_all [List.mem_filter]
  all_goals try tauto

/-- Witness for C6's amended theorem at a concrete store and filter. -/
theorem getAssessments_and_semantics_witness :
    assessmentRec1 ∈ getAssessments storeC6 (some { taskId := some 1 }) ↔
      (assessmentRec1 ∈ mvalues storeC6.assessments ∧
        (∀ v, ({ taskId := some 1 } : AssessmentFilters).studentId = some v → v ≠ 0 →
          assessmentRec1.studentId = v) ∧
        (∀ v, ({ taskId := some 1 } : AssessmentFilters).assessorId = some v → v ≠ 0 →
          assessmentRec1.assessorId = v) ∧
        (∀ v, ({ taskId := some 1 } : AssessmentFilters).taskId = some v → v ≠ 0 →
          assessmentRec1.taskId = v) ∧
        (∀ v, ({ taskId := some 1 } : AssessmentFilters).status = some v → v ≠ "" →
          assessmentRec1.status = v)) :=
  getAssessments_and_semantics storeC6 { taskId := some 1 } assessmentRec1

theorem createStudent_preserves (s : MemStorage) (student : InsertStudent)
    (userData : InsertUser) (now : ℤ)
    (hc : UserCounterInv s) (hs : StudentRoleInv s) (ha : AssessorRoleInv s) :
    UserCounterInv (createStudent s student userData now).2 ∧
    StudentRoleInv (createStudent s student userData now).2 ∧
    AssessorRoleInv (createStudent s student userData now).2 := by
  refine ⟨?_, ?_, ?_⟩
  · intro id u hu
    simp only [createStudent, createUser] at hu ⊢
    by_cases hid : id = s.userId
    · omega
    · rw [mget_mset_ne _ _ _ _ hid] at hu
      have := hc id u hu
      omega
  · intro id st hst
    simp only [createStudent, createUser] at hst ⊢
    by_cases hid : id = s.studentId
    · subst hid
      rw [mget_mset_self] at hst
      obtain rfl := Option.some_inj.mp hst
      exact ⟨_, mget_mset_self _ _ _, rfl⟩
    · rw [mget_mset_ne _ _ _ _ hid] at hst
      obtain ⟨u, hu, hrole⟩ := hs id st hst
      have hlt := hc st.userId u hu
      refine ⟨u, ?_, hrole⟩
      rw [mget_mset_ne _ _ _ _ (by omega)]
      exact hu
  · intro id a hax
    simp only [createStudent, createUser] at hax ⊢
    obtain ⟨u, hu, hrole⟩ := ha id a hax
    have hlt := hc a.userId u hu
    refine ⟨u, ?_, hrole⟩
    rw [mget_mset_ne _ _ _ _ (by omega)]
    exact hu

theorem createAssessor_preserves (s : MemStorage) (assessor : InsertAssessor)
    (userData : InsertUser) (now : ℤ)
    (hc : UserCounterInv s) (hs : StudentRoleInv s) (ha : AssessorRoleInv s) :
    UserCounterInv (createAssessor s assessor userData now).2 ∧
    StudentRoleInv (createAssessor s assessor userData now).2 ∧
    AssessorRoleInv (createAssessor s assessor userData now).2 := by
  refine ⟨?_, ?_, ?_⟩
  · intro id u hu
    simp only [createAssessor, createUser] at hu ⊢
    by_cases hid : id = s.userId
    · omega
    · rw [mget_mset_ne _ _ _ _ hid] at hu
      have := hc id u hu
      omega
  · intro id st hst
    simp only [createAssessor, createUser] at hst ⊢
    obtain ⟨u, hu, hrole⟩ := hs id st hst
    have hlt := hc st.userId u hu
    refine ⟨u, ?_, hrole⟩
    rw [mget_mset_ne _ _ _ _ (by omega)]
    exact hu
  · intro id a hax
    simp only [createAssessor, createUser] at hax ⊢
    by_cases hid : id = s.assessorId
    · subst hid
      rw [mget_mset_self] at hax
      obtain rfl := Option.some_inj.mp hax
      exact ⟨_, mget_mset_self _ _ _, rfl⟩
    · rw [mget_mset_ne _ _ _ _ hid] at hax
      obtain ⟨u, hu, hrole⟩ := ha id a hax
      have hlt := hc a.userId u hu
      refine ⟨u, ?_, hrole⟩
      rw [mget_mset_ne _ _ _ _ (by omega)]
      exact hu

/-- C9: the user created by `createStudent` (resp. `createAssessor`) has
role "student" (resp. "assessor") regardless of the role supplied in
`userData`, and consequently, from any store satisfying the role
invariants and the counter invariant, every sequence of create operations
preserves them: every student's linked user stays role "student" and
every assessor's linked user stays role "assessor". -/
theorem create_forces_role_invariant :
    (∀ (s : MemStorage) (student : InsertStudent) (userData : InsertUser) (now : ℤ),
      ∃ u, mget (createStudent s student userData now).2.users
            (createStudent s student userData now).1.userId = some u ∧
           u.role = "student") ∧
    (∀ (s : MemStorage) (assessor : InsertAssessor) (userData : InsertUser) (now : ℤ),
      ∃ u, mget (createAssessor s assessor userData now).2.users
            (createAssessor s assessor userData now).1.userId = some u ∧
           u.role = "assessor") ∧
    (∀ s : MemStorage, UserCounterInv s → StudentRoleInv s → AssessorRoleInv s →
      ∀ ops : List CreateOp,
        StudentRoleInv (applyCreateOps s ops) ∧ AssessorRoleInv (applyCreateOps s ops)) := by
  refine ⟨?_, ?_, ?_⟩
  · intro s student userData now
    exact ⟨_, mget_mset_self _ _ _, rfl⟩
  · intro s assessor userData now
    exact ⟨_, mget_mset_self _ _ _, rfl⟩
  · intro s hc hs ha ops
    induction ops generalizing s with
    | nil => exact ⟨hs, ha⟩
    | cons op rest ih =>
        cases op with
        | createStudentOp st u now =>
            obtain ⟨hc', hs', ha'⟩ := createStudent_preserves s st u now hc hs ha
            exact ih _ hc' hs' ha'
        | createAssessorOp a u now =>
            obtain ⟨hc', hs', ha'⟩ := createAssessor_preserves s a u now hc hs ha
            exact ih _ hc' hs' ha'

/-- Witness for C9 from the empty store. -/
theorem create_forces_role_invariant_witness :
    (UserCounterInv emptyStore ∧ StudentRoleInv emptyStore ∧ AssessorRoleInv emptyStore) ∧
    (StudentRoleInv (applyCreateOps emptyStore demoCreateOps) ∧
      AssessorRoleInv (applyCreateOps emptyStore demoCreateOps)) ∧
    (∃ u, mget (createStudent emptyStore { userId := 0, classId := 1 }
            { username := "student9", password := "pw", email := "s9@example.com"
              fullName := "Sam Lee", role := "admin" } 0).2.users
          (createStudent emptyStore { userId := 0, classId := 1 }
            { username := "student9", password := "pw", email := "s9@example.com"
              fullName := "Sam Lee", role := "admin" } 0).1.userId = some u ∧
         u.role = "student") :=
  have hc : UserCounterInv emptyStore := by
    intro id u h
    simp [emptyStore, mget] at h
  have hs : StudentRoleInv emptyStore := by
    intro id st h
    simp [emptyStore, mget] at h
  have ha : AssessorRoleInv emptyStore := by
    intro id a h
    simp [emptyStore, mget] at h
  ⟨⟨hc, hs, ha⟩,
   create_forces_role_invariant.2.2 emptyStore hc hs ha demoCreateOps,
   create_forces_role_invariant.1 emptyStore { userId := 0, classId := 1 }
     { username := "student9", password := "pw", email := "s9@example.com"
       fullName := "Sam Lee", role := "admin" } 0⟩

/-- C10: every update operation applied to a present id returns the
merged record and only replaces that record in its map; the merged record
keeps the original `id` and `createdAt`, every unsupplied field is
unchanged, and for `updateAssessment` the `updatedAt` field is refreshed;
applied to an absent id, every update operation returns `undefined` and
leaves the store completely unchanged. -/
theorem update_frame_properties (s : MemStorage) (id : ℤ) (now : ℤ) :
    ((∀ (p : SchoolPatch) e, mget s.schools id = some e →
      ∃ r, updateSchool s id p = (some r, { s with schools := mset s.schools id r }) ∧
        r.id = e.id ∧ r.createdAt = e.createdAt ∧
        (p.name = none → r.name = e.name) ∧
        (p.address = none → r.address = e.address)) ∧
     (∀ p : SchoolPatch, mget s.schools id = none → updateSchool s id p = (none, s))) ∧
    ((∀ (p : ClassPatch) e, mget s.classes id = some e →
      ∃ r, updateClass s id p = (some r, { s with classes := mset s.classes id r }) ∧
        r.id = e.id ∧ r.createdAt = e.createdAt ∧
        (p.name = none → r.name = e.name) ∧
        (p.schoolId = none → r.schoolId = e.schoolId)) ∧
     (∀ p : ClassPatch, mget s.classes id = none → updateClass s id p = (none, s))) ∧
    ((∀ (p : StudentPatch) e, mget s.students id = some e →
      ∃ r, updateStudent s id p = (some r, { s with students := mset s.students id r }) ∧
        r.id = e.id ∧ r.createdAt = e.createdAt ∧
        (p.userId = none → r.userId = e.userId) ∧
        (p.classId = none → r.classId = e.classId)) ∧
     (∀ p : StudentPatch, mget s.students id = none → updateStudent s id p = (none, s))) ∧
    ((∀ (p : AssessorPatch) e, mget s.assessors id = some e →
      ∃ r, updateAssessor s id p = (some r, { s with assessors := mset s.assessors id r }) ∧
        r.id = e.id ∧ r.createdAt = e.createdAt ∧
        (p.userId = none → r.userId = e.userId) ∧
        (p.schoolIds = none → r.schoolIds = e.schoolIds)) ∧
     (∀ p : AssessorPatch, mget s.assessors id = none → updateAssessor s id p = (none, s))) ∧
    ((∀ (p : RubricTemplatePatch) e, mget s.rubricTemplates id = some e →
      ∃ r, updateRubricTemplate s id p =
          (some r, { s with rubricTemplates := mset s.rubricTemplates id r }) ∧
        r.id = e.id ∧ r.createdAt = e.createdAt ∧
        (p.name = none → r.name = e.name) ∧
        (p.description = none → r.description = e.description) ∧
        (p.criteria = none → r.criteria = e.criteria)) ∧
     (∀ p : RubricTemplatePatch, mget s.rubricTemplates id = none →
        updateRubricTemplate s id p = (none, s))) ∧
    ((∀ (p : TaskPatch) e, mget s.tasks id = some e →
      ∃ r, updateTask s id p = (some r, { s with tasks := mset s.tasks id r }) ∧
        r.id = e.id ∧ r.createdAt = e.createdAt ∧
        (p.name = none → r.name = e.name) ∧
        (p.description = none → r.description = e.description) ∧
        (p.rubricTemplateId = none → r.rubricTemplateId = e.rubricTemplateId)) ∧
     (∀ p : TaskPatch, mget s.tasks id = none → updateTask s id p = (none, s))) ∧
    ((∀ (p : AssessmentPatch) e, mget s.assessments id = some e →
      ∃ r, updateAssessment s id p now =
          (some r, { s with assessments := mset s.assessments id r }) ∧
        r.id = e.id ∧ r.createdAt = e.createdAt ∧ r.updatedAt = now ∧
        (p.studentId = none → r.studentId = e.studentId) ∧
        (p.assessorId = none → r.assessorId = e.assessorId) ∧
        (p.taskId = none → r.taskId = e.taskId) ∧
        (p.status = none → r.status = e.status) ∧
        (p.scores = none → r.scores = e.scores) ∧
        (p.totalScore = none → r.totalScore = e.totalScore) ∧
        (p.feedback = none → r.feedback = e.feedback) ∧
        (p.pdfPath = none → r.pdfPath = e.pdfPath)) ∧
     (∀ p : AssessmentPatch, mget s.assessments id = none →
        updateAssessment s id p now = (none, s))) := by
  refine ⟨⟨?_, ?_⟩, ⟨?_, ?_⟩, ⟨?_, ?_⟩, ⟨?_, ?_⟩, ⟨?_, ?_⟩, ⟨?_, ?_⟩, ⟨?_, ?_⟩⟩
  · intro p e he
    refine ⟨{ id := e.id, name := p.name.getD e.name,
              address := p.address.getD e.address, createdAt := e.createdAt },
      ?_, rfl, rfl, ?_, ?_⟩
    · simp [updateSchool, he]
    · intro h
      simp [h]
    · intro h
      simp [h]
  · intro p h
    simp [updateSchool, h]
  · intro p e he
    refine ⟨{ id := e.id, name := p.name.getD e.name,
              schoolId := p.schoolId.getD e.schoolId, createdAt := e.createdAt },
      ?_, rfl, rfl, ?_, ?_⟩
    · simp [updateClass, he]
    · intro h
      simp [h]
    · intro h
      simp [h]
  · intro p h
    simp [updateClass, h]
  · intro p e he
    refine ⟨{ id := e.id, userId := p.userId.getD e.userId,
              classId := p.classId.getD e.classId, createdAt := e.createdAt },
      ?_, rfl, rfl, ?_, ?_⟩
    · simp [updateStudent, he]
    · intro h
      simp [h]
    · intro h
      simp [h]
  · intro p h
    simp [updateStudent, h]
  · intro p e he
    refine ⟨{ id := e.id, userId := p.userId.getD e.userId,
              schoolIds := p.schoolIds.getD e.schoolIds, createdAt := e.createdAt },
      ?_, rfl, rfl, ?_, ?_⟩
    · simp [updateAssessor, he]
    · intro h
      simp [h]
    · intro h
      simp [h]
  · intro p h
    simp [updateAssessor, h]
  · intro p e he
    refine ⟨{ id := e.id, name := p.name.getD e.name,
              description := p.description.getD e.description,
              criteria := p.criteria.getD e.criteria, createdAt := e.createdAt },
      ?_, rfl, rfl, ?_, ?_, ?_⟩
    · simp [updateRubricTemplate, he]
    · intro h
      simp [h]
    · intro h
      simp [h]
    · intro h
      simp [h]
  · intro p h
    simp [updateRubricTemplate, h]
  · intro p e he
    refine ⟨{ id := e.id, name := p.name.getD e.name,
              description := p.description.getD e.description,
              rubricTemplateId := p.rubricTemplateId.getD e.rubricTemplateId,
              createdAt := e.createdAt },
      ?_, rfl, rfl, ?_, ?_, ?_⟩
    · simp [updateTask, he]
    · intro h
      simp [h]
    · intro h
      simp [h]
    · intro h
      simp [h]
  · intro p h
    simp [updateTask, h]
  · intro p e he
    refine ⟨{ id := e.id, studentId := p.studentId.getD e.studentId,
              assessorId := p.assessorId.getD e.assessorId,
              taskId := p.taskId.getD e.taskId, status := p.status.getD e.status,
              scores := p.scores.getD e.scores,
              totalScore := p.totalScore.getD e.totalScore,
              feedback := p.feedback.getD e.feedback,
              pdfPath := p.pdfPath.getD e.pdfPath,
              createdAt := e.createdAt, updatedAt := now },
      ?_, rfl, rfl, rfl, ?_, ?_, ?_, ?_, ?_, ?_, ?_, ?_⟩
    · simp [updateAssessment, he]
    all_goals intro h
    all_goals simp [h]
  · intro p h
    simp [updateAssessment, h]

/-- Witness for C10: present id 1 and absent id 99 in `storeC10`, for
`updateSchool` and `updateAssessment`. -/
theorem update_frame_properties_witness :
    (mget storeC10.schools 1 = some schoolRec1 ∧
      ∃ r, updateSchool storeC10 1 {} =
          (some r, { storeC10 with schools := mset storeC10.schools 1 r }) ∧
        r.id = schoolRec1.id ∧ r.createdAt = schoolRec1.createdAt ∧
        (({} : SchoolPatch).name = none → r.name = schoolRec1.name) ∧
        (({} : SchoolPatch).address = none → r.address = schoolRec1.address)) ∧
    (mget storeC10.schools 99 = none ∧ updateSchool storeC10 99 {} = (none, storeC10)) ∧
    (mget storeC10.assessments 1 = some assessmentRec1 ∧
      ∃ r, updateAssessment storeC10 1 {} 5 =
          (some r, { storeC10 with assessments := mset storeC10.assessments 1 r }) ∧
        r.id = assessmentRec1.id ∧ r.createdAt = assessmentRec1.createdAt ∧
        r.updatedAt = 5 ∧
        (({} : AssessmentPatch).studentId = none → r.studentId = assessmentRec1.studentId) ∧
        (({} : AssessmentPatch).assessorId = none → r.assessorId = assessmentRec1.assessorId) ∧
        (({} : AssessmentPatch).taskId = none → r.taskId = assessmentRec1.taskId) ∧
        (({} : AssessmentPatch).status = none → r.status = assessmentRec1.status) ∧
        (({} : AssessmentPatch).scores = none → r.scores = assessmentRec1.scores) ∧
        (({} : AssessmentPatch).totalScore = none → r.totalScore = assessmentRec1.totalScore) ∧
        (({} : AssessmentPatch).feedback = none → r.feedback = assessmentRec1.feedback) ∧
        (({} : AssessmentPatch).pdfPath = none → r.pdfPath = assessmentRec1.pdfPath)) ∧
    (mget storeC10.assessments 99 = none ∧
      updateAssessment storeC10 99 {} 5 = (none, storeC10)) :=
  ⟨⟨rfl, (update_frame_properties storeC10 1 5).1.1 {} schoolRec1 rfl⟩,
   ⟨rfl, (update_frame_properties storeC10 99 5).1.2 {} rfl⟩,
   ⟨rfl, (update_frame_properties storeC10 1 5).2.2.2.2.2.2.1 {} assessmentRec1 rfl⟩,
   ⟨rfl, (update_frame_properties storeC10 99 5).2.2.2.2.2.2.2 {} rfl⟩⟩

theorem parseSchoolPatch_error_nonempty (body : Json) (errs : List FieldError)
    (h : parseSchoolPatch body = Except.error errs) : errs ≠ [] := by
  cases body with
  | obj fields =>
      simp only [parseSchoolPatch] at h
      split at h <;> rename_i h0
      · simp at h
      · injection h with h1
        subst h1
        intro hnil
        rw [hnil] at h0
        simp at h0
  | str s => injection h with h1; subst h1; simp
  | num q => injection h with h1; subst h1; simp
  | bool b => injection h with h1; subst h1; simp
  | null => injection h with h1; subst h1; simp
  | arr xs => injection h with h1; subst h1; simp

theorem parseAssessmentPatch_error_nonempty (body : Json) (errs : List FieldError)
    (h : parseAssessmentPatch body = Except.error errs) : errs ≠ [] := by
  cases body with
  | obj fields =>
      simp only [parseAssessmentPatch] at h
      split at h <;> rename_i h0
      · simp at h
      · injection h with h1
        subst h1
        intro hnil
        rw [hnil] at h0
        simp at h0
  | str s => injection h with h1; subst h1; simp
  | num q => injection h with h1; subst h1; simp
  | bool b => injection h with h1; subst h1; simp
  | null => injection h with h1; subst h1; simp
  | arr xs => injection h with h1; subst h1; simp

/-- C7: when the request body fails schema validation, both PUT handlers
answer 400 carrying the (nonempty) field-level issue list and leave the
store untouched; when the body is valid but the id is absent, both answer
404 and leave the store untouched. -/
theorem put_routes_validation :
    (∀ (s : MemStorage) (id : ℤ) (body : Json) (errs : List FieldError),
      parseSchoolPatch body = Except.error errs →
        putSchool s id body = ({ status := 400, errors := errs }, s) ∧ errs ≠ []) ∧
    (∀ (s : MemStorage) (id : ℤ) (body : Json) (p : SchoolPatch),
      parseSchoolPatch body = Except.ok p → mget s.schools id = none →
        putSchool s id body = ({ status := 404, errors := [] }, s)) ∧
    (∀ (s : MemStorage) (id : ℤ) (body : Json) (now : ℤ) (errs : List FieldError),
      parseAssessmentPatch body = Except.error errs →
        putAssessment s id body now = ({ status := 400, errors := errs }, s) ∧ errs ≠ []) ∧
    (∀ (s : MemStorage) (id : ℤ) (body : Json) (now : ℤ) (p : AssessmentPatch),
      parseAssessmentPatch body = Except.ok p → mget s.assessments id = none →
        putAssessment s id body now = ({ status := 404, errors := [] }, s)) := by
  refine ⟨?_, ?_, ?_, ?_⟩
  · intro s id body errs h
    exact ⟨by simp [putSchool, h], parseSchoolPatch_error_nonempty body errs h⟩
  · intro s id body p hp hnone
    simp [putSchool, hp, updateSchool, hnone]
  · intro s id body now errs h
    exact ⟨by simp [putAssessment, h], parseAssessmentPatch_error_nonempty body errs h⟩
  · intro s id body now p hp hnone
    simp [putAssessment, hp, getAssessment, hnone]

/-- Witness for C7: a non-object body (400) and a valid body with an
absent id (404), for both handlers, on the empty store. -/
theorem put_routes_validation_witness :
    (putSchool emptyStore 1 (Json.num 3) =
        ({ status := 400, errors := [{ path := [], code := "invalid_type" }] }, emptyStore) ∧
      ([{ path := [], code := "invalid_type" }] : List FieldError) ≠ []) ∧
    (parseSchoolPatch (Json.obj [("name", Json.str "Eastside Academy")]) =
        Except.ok { name := some "Eastside Academy", address := none } ∧
      mget emptyStore.schools 1 = none ∧
      putSchool emptyStore 1 (Json.obj [("name", Json.str "Eastside Academy")]) =
        ({ status := 404, errors := [] }, emptyStore)) ∧
    (putAssessment emptyStore 1 (Json.str "oops") 0 =
        ({ status := 400, errors := [{ path := [], code := "invalid_type" }] }, emptyStore) ∧
      ([{ path := [], code := "invalid_type" }] : List FieldError) ≠ []) ∧
    (parseAssessmentPatch (Json.obj []) = Except.ok {} ∧
      mget emptyStore.assessments 1 = none ∧
      putAssessment emptyStore 1 (Json.obj []) 0 =
        ({ status := 404, errors := [] }, emptyStore)) :=
  ⟨put_routes_validation.1 emptyStore 1 (Json.num 3) _ rfl,
   ⟨rfl, rfl,
    put_routes_validation.2.1 emptyStore 1 (Json.obj [("name", Json.str "Eastside Academy")])
      { name := some "Eastside Academy", address := none } rfl rfl⟩,
   put_routes_validation.2.2.1 emptyStore 1 (Json.str "oops") 0 _ rfl,
   ⟨rfl, rfl,
    put_routes_validation.2.2.2 emptyStore 1 (Json.obj []) 0 {} rfl rfl⟩⟩
